import Mathlib

/-!
Verification of the LoreSmith AI analysis pipeline.

This file gives a shallow embedding of the AI service layer of the
loresmith-api repository (app/core/ai_client.py, the analyze action of
app/core/views/story.py, and app/core/throttling.py) and proves the
behavioural properties claimed by the specification.

Modelling conventions:
 - Python strings are Lean Strings; Python str.strip() and slicing
   s[:n] are modelled character-wise on the underlying character list.
 - The external OpenAI client is a parameter: a function from the
   prompts sent to it to an outcome, either a raised OpenAIError
   (carrying the underlying message) or a response object holding a
   usage record and a parsed output dictionary.
 - The Django cache entry for today is a natural number threaded
   through the pipeline; the trace records the number of cache reads of
   the daily-token key and the list of upstream calls issued.
 - Nullable Python values are Options; a dict .get with a default is
   Option.getD.
-/

namespace LoreSmith

/-- Python str.strip(): drop whitespace from both ends of the string. -/
def pyStrip (s : String) : String :=
  ⟨((s.data.dropWhile Char.isWhitespace).reverse.dropWhile Char.isWhitespace).reverse⟩

/-- Python slicing s[:n]: the first n characters of s. -/
def pySlice (s : String) (n : Nat) : String :=
  ⟨s.data.take n⟩

/-- Config dataclass LoreAIConfig of ai_client.py. -/
structure LoreAIConfig where
  enabled : Bool
  model : String
  max_output_tokens : Nat
  max_input_chars : Nat
  daily_token_budget : Nat
deriving DecidableEq

/-- The default configuration produced by _get_config when no setting is set. -/
def defaultConfig : LoreAIConfig :=
  { enabled := true
    model := "gpt-4.1-mini"
    max_output_tokens := 256
    max_input_chars := 8000
    daily_token_budget := 200000 }

/-- Usage record of an upstream response; every count may be unavailable. -/
structure Usage where
  prompt_tokens : Option Nat
  completion_tokens : Option Nat
  total_tokens : Option Nat
deriving DecidableEq

/-- The parsed structured output of the model: a dictionary in which every
expected key may be absent. -/
structure ParsedOutput where
  summary : Option String
  themes : Option (List String)
  tone : Option String
  strengths : Option (List String)
  weaknesses : Option (List String)
  suggestions : Option (List String)
deriving DecidableEq

/-- An upstream response object: an optional usage record and the parsed
structured output accessed as response.choices[0].message.parsed. -/
structure UpstreamResponse where
  usage : Option Usage
  parsed : ParsedOutput
deriving DecidableEq

/-- Outcome of the external model call: a raised OpenAIError carrying the
underlying message, or a response. -/
inductive UpstreamOutcome where
  | failure (exc : String)
  | success (resp : UpstreamResponse)
deriving DecidableEq

/-- The error kinds raised by LoreAIService. DailyBudgetExceeded is a
subclass of AiServiceError in the source; the view distinguishes it. -/
inductive AiError where
  | emptyInput
  | misconfiguredClient
  | dailyBudgetExceeded
  | upstreamFailure
deriving DecidableEq

/-- The message each raised error carries, verbatim from ai_client.py. -/
def AiError.message : AiError → String
  | .emptyInput => "No content provided for analysis."
  | .misconfiguredClient => "AI client is not initialized."
  | .dailyBudgetExceeded => "AI daily token budget exceeded. Try again tomorrow."
  | .upstreamFailure => "AI analysis failed."

/-- Whether the error is the DailyBudgetExceeded subclass, the one the
view catches before the generic AiServiceError handler. -/
def AiError.isDailyBudgetExceeded : AiError → Bool
  | .dailyBudgetExceeded => true
  | _ => false

/-- The meta block of an analysis result. -/
structure Meta where
  ai_mode : String
  model : Option String
  input_tokens : Option Nat
  output_tokens : Option Nat
  total_tokens : Option Nat
deriving DecidableEq

/-- The dictionary returned by analyze_text. Only the mock response carries
a snippet key. -/
structure AnalysisResult where
  summary : String
  themes : List String
  tone : String
  strengths : List String
  weaknesses : List String
  suggestions : List String
  meta : Meta
  snippet : Option String
deriving DecidableEq

/-- analyze_text either returns a result or raises an AiError. -/
inductive Outcome where
  | ok (r : AnalysisResult)
  | error (e : AiError)
deriving DecidableEq

/-- The system and user messages built by _build_prompt. -/
structure Prompts where
  system : String
  user : String
deriving DecidableEq

/-- The fixed system instruction of _build_prompt. -/
def systemInstruction : String :=
  "You are LoreSmith, an assistant that analyzes worldbuilding " ++
  "content (stories, characters, locations, factions, items). " ++
  "You MUST respond with a single JSON object only. " ++
  "Do not include any explanation outside of JSON.\n\n" ++
  "The JSON object must have these keys:\n" ++
  "- summary (string)\n" ++
  "- themes (array of strings)\n" ++
  "- tone (string)\n" ++
  "- strengths (array of strings)\n" ++
  "- weaknesses (array of strings)\n" ++
  "- suggestions (array of strings)\n\n" ++
  "Keep summaries concise and spoiler-light. Do not invent new lore."

/-- The fixed part of the user message of _build_prompt; the (possibly
truncated) text is appended to it. -/
def userIntro : String :=
  "Analyze the following lore content and fill the JSON fields.\n\n" ++
  "Lore content:\n" ++
  "----------------------\n"

/-- LoreAIService._build_prompt. -/
def build_prompt (text : String) : Prompts :=
  { system := systemInstruction, user := userIntro ++ text }

/-- LoreAIService._mock_response: the deterministic placeholder result. -/
def mock_response (text : String) : AnalysisResult :=
  { summary := "AI is not available. This is a placeholder summary."
    themes := ["mock-theme"]
    tone := "neutral"
    strengths :=
      ["Mock analysis enabled so development can proceed without real AI calls."]
    weaknesses :=
      ["This feedback is not based on the actual content."]
    suggestions :=
      ["Configure OPENAI_API_KEY and LORESMITH_AI_ENABLED=true to enable real analysis."]
    meta :=
      { ai_mode := "mock"
        model := none
        input_tokens := some 0
        output_tokens := some 0
        total_tokens := some 0 }
    snippet :=
      some (if text.length > 200 then pySlice text 200 ++ "..." else text) }

/-- The character-limit step of analyze_text: hard cut to
max_input_chars leading characters when the text is longer. -/
def truncate (cfg : LoreAIConfig) (text : String) : String :=
  if text.length > cfg.max_input_chars then pySlice text cfg.max_input_chars else text

/-- getattr(response.usage, total_tokens, None) with usage possibly absent. -/
def respTotalTokens (resp : UpstreamResponse) : Option Nat :=
  resp.usage.bind Usage.total_tokens

/-- The ledger after the success path: add_daily_tokens_used runs exactly
when the response reports a total, and adds that total to the counter. -/
def applyUsage (ledger : Nat) (resp : UpstreamResponse) : Nat :=
  match respTotalTokens resp with
  | some n => ledger + n
  | none => ledger

/-- Number of reads of the daily-token cache key on the success path: one
in _check_daily_budget, and when a total is reported one inside
add_daily_tokens_used and one in the logging call. -/
def liveReads (resp : UpstreamResponse) : Nat :=
  match respTotalTokens resp with
  | some _ => 3
  | none => 1

/-- The result dictionary assembled on the live success path of
analyze_text: missing parsed keys default to empty string or empty list,
summary and tone are stripped. -/
def liveResult (cfg : LoreAIConfig) (resp : UpstreamResponse) : AnalysisResult :=
  { summary := pyStrip (resp.parsed.summary.getD "")
    themes := resp.parsed.themes.getD []
    tone := pyStrip (resp.parsed.tone.getD "")
    strengths := resp.parsed.strengths.getD []
    weaknesses := resp.parsed.weaknesses.getD []
    suggestions := resp.parsed.suggestions.getD []
    meta :=
      { ai_mode := "live"
        model := some cfg.model
        input_tokens := resp.usage.bind Usage.prompt_tokens
        output_tokens := resp.usage.bind Usage.completion_tokens
        total_tokens := respTotalTokens resp }
    snippet := none }

/-- Trace of one call of LoreAIService.analyze_text: its outcome, the
daily-token counter after the call, how many times the daily-token cache
key was read, the prompts of every upstream call issued, and the processed
text (trimmed, then truncated) handed to the model or to the placeholder. -/
structure AnalyzeTrace where
  outcome : Outcome
  ledger : Nat
  ledgerReads : Nat
  upstreamCalls : List Prompts
  processed : Option String
deriving DecidableEq

/-- LoreAIService.analyze_text. The service holds a client exactly when an
API key is configured (hasKey); upstream is the external model client. -/
def analyze_text (cfg : LoreAIConfig) (hasKey : Bool)
    (upstream : Prompts → UpstreamOutcome) (ledger : Nat) (input : String) :
    AnalyzeTrace :=
  if pyStrip input = "" then
    { outcome := .error .emptyInput, ledger := ledger, ledgerReads := 0
      upstreamCalls := [], processed := none }
  else
    let text := truncate cfg (pyStrip input)
    if !cfg.enabled || !hasKey then
      { outcome := .ok (mock_response text), ledger := ledger, ledgerReads := 0
        upstreamCalls := [], processed := some text }
    else if cfg.daily_token_budget ≤ ledger then
      { outcome := .error .dailyBudgetExceeded, ledger := ledger, ledgerReads := 1
        upstreamCalls := [], processed := some text }
    else if !hasKey then
      { outcome := .error .misconfiguredClient, ledger := ledger, ledgerReads := 1
        upstreamCalls := [], processed := some text }
    else
      match upstream (build_prompt text) with
      | .failure _ =>
        { outcome := .error .upstreamFailure, ledger := ledger, ledgerReads := 1
          upstreamCalls := [build_prompt text], processed := some text }
      | .success resp =>
        { outcome := .ok (liveResult cfg resp), ledger := applyUsage ledger resp
          ledgerReads := liveReads resp
          upstreamCalls := [build_prompt text], processed := some text }

/-- The text fields of a Story as the analyze view reads them; each may be
null in the store. -/
structure StoryFields where
  title : Option String
  summary : Option String
  body : Option String
deriving DecidableEq

/-- The text the analyze view builds: title, summary and body, each
replaced by the empty string when null, kept when truthy and non-blank,
joined with a blank line. -/
def story_text (s : StoryFields) : String :=
  String.intercalate "\n\n"
    (([s.title.getD "", s.summary.getD "", s.body.getD ""]).filter
      (fun p => (p != "") && (pyStrip p != "")))

/-- The success payload the analyze view assembles around the service
result. -/
structure ResponseData where
  entity_type : String
  entity_id : Nat
  entity_label : Option String
  summary : String
  themes : List String
  tone : String
  strengths : List String
  weaknesses : List String
  suggestions : List String
  meta : Meta
deriving DecidableEq

/-- An HTTP response of the analyze view: status code, error detail when
failing, payload when succeeding. -/
structure HttpResponse where
  status : Nat
  detail : Option String
  data : Option ResponseData
deriving DecidableEq

/-- Trace of one call of the analyze view. -/
structure ViewTrace where
  response : HttpResponse
  ledger : Nat
  ledgerReads : Nat
  upstreamCalls : List Prompts
deriving DecidableEq

/-- StoryViewSet.analyze: builds the text, returns 400 when it is empty,
otherwise runs the service and maps DailyBudgetExceeded to 429 and every
other AiServiceError to 503. -/
def story_analyze (cfg : LoreAIConfig) (hasKey : Bool)
    (upstream : Prompts → UpstreamOutcome) (ledger : Nat)
    (storyId : Nat) (s : StoryFields) : ViewTrace :=
  let text := story_text s
  if text = "" then
    { response :=
        { status := 400
          detail := some "Nothing to analyze (title/summary/body are empty)."
          data := none }
      ledger := ledger, ledgerReads := 0, upstreamCalls := [] }
  else
    let t := analyze_text cfg hasKey upstream ledger text
    match t.outcome with
    | .error e =>
      if e.isDailyBudgetExceeded then
        { response := { status := 429, detail := some e.message, data := none }
          ledger := t.ledger, ledgerReads := t.ledgerReads
          upstreamCalls := t.upstreamCalls }
      else
        { response := { status := 503, detail := some e.message, data := none }
          ledger := t.ledger, ledgerReads := t.ledgerReads
          upstreamCalls := t.upstreamCalls }
    | .ok r =>
      { response :=
          { status := 200
            detail := none
            data := some
              { entity_type := "story"
                entity_id := storyId
                entity_label := s.title
                summary := r.summary
                themes := r.themes
                tone := r.tone
                strengths := r.strengths
                weaknesses := r.weaknesses
                suggestions := r.suggestions
                meta := r.meta } }
        ledger := t.ledger, ledgerReads := t.ledgerReads
        upstreamCalls := t.upstreamCalls }

/-- A request user as the throttle sees it: primary key and whether the
user is authenticated. -/
structure RequestUser where
  pk : Nat
  is_authenticated : Bool
deriving DecidableEq

/-- A request reaching the throttle: the user attribute may be absent,
and the request also carries a body and targets an entity, neither of
which the throttle may key on. -/
structure ThrottleRequest where
  user : Option RequestUser
  body : String
  entityId : Nat
deriving DecidableEq

/-- The cache-key format of the framework base class, with scope and
ident interpolated. -/
def cache_format (scope ident : String) : String :=
  "throttle_" ++ scope ++ "_" ++ ident

/-- AIUserThrottle.get_cache_key: no key for an absent or unauthenticated
user, otherwise the key built from the scope "ai" and the user primary
key. -/
def get_cache_key (req : ThrottleRequest) : Option String :=
  match req.user with
  | none => none
  | some u =>
    if !u.is_authenticated then none
    else some (cache_format "ai" (toString u.pk))

/-- Modelled from the spec: the framework base class SimpleRateThrottle
(an external collaborator, not in this repository) admits every request
for which get_cache_key returns none, and otherwise applies its window
counter decision to that key. -/
def allow_request (window : String → Bool) (req : ThrottleRequest) : Bool :=
  match get_cache_key req with
  | none => true
  | some k => window k

/-- One in-flight call of add_daily_tokens_used: the tokens to add, the
counter value its cache.get returned when that step has run, and whether
its cache.set has run. -/
structure AddCall where
  tokens : Nat
  readVal : Option Nat
  done : Bool
deriving DecidableEq

/-- Run the next atomic cache operation of one add_daily_tokens_used
call: first the cache.get of the current counter, then the cache.set of
readValue + tokens. A finished call leaves the counter unchanged. -/
def stepAdd (counter : Nat) (c : AddCall) : Nat × AddCall :=
  match c.readVal with
  | none => (counter, { c with readVal := some counter })
  | some r => if c.done then (counter, c) else (r + c.tokens, { c with done := true })

/-- Run an interleaving of two concurrent add_daily_tokens_used calls:
each schedule entry says which call performs its next atomic cache
operation; the result is the final daily-token counter. -/
def runInterleaving (sched : List Bool) (counter : Nat) (c1 c2 : AddCall) : Nat :=
  match sched with
  | [] => counter
  | b :: rest =>
    if b then
      runInterleaving rest (stepAdd counter c1).1 (stepAdd counter c1).2 c2
    else
      runInterleaving rest (stepAdd counter c2).1 c1 (stepAdd counter c2).2

/-! Concrete fixtures used to instantiate the theorems below. -/

/-- A configuration with AI disabled and the other defaults. -/
def cfgOff : LoreAIConfig :=
  { enabled := false, model := "gpt-4.1-mini", max_output_tokens := 256
    max_input_chars := 8000, daily_token_budget := 200000 }

/-- An enabled configuration with a small daily budget. -/
def cfgLive : LoreAIConfig :=
  { enabled := true, model := "gpt-4.1-mini", max_output_tokens := 256
    max_input_chars := 8000, daily_token_budget := 1000 }

/-- An enabled configuration with a tiny character ceiling. -/
def cfgTiny : LoreAIConfig :=
  { enabled := true, model := "gpt-4.1-mini", max_output_tokens := 256
    max_input_chars := 3, daily_token_budget := 1000 }

/-- An upstream client whose call raises a transport error. -/
def upFail : Prompts → UpstreamOutcome :=
  fun _ => .failure "connection reset by peer"

/-- A full upstream response: usage reported and every parsed key present. -/
def respFull : UpstreamResponse :=
  { usage := some { prompt_tokens := some 11, completion_tokens := some 7, total_tokens := some 18 }
    parsed :=
      { summary := some " A fine tale. ", themes := some ["courage"], tone := some " grim "
        strengths := some ["pacing"], weaknesses := some ["length"], suggestions := some ["trim it"] } }

/-- A bare upstream response: no usage record and every parsed key absent. -/
def respBare : UpstreamResponse :=
  { usage := none
    parsed :=
      { summary := none, themes := none, tone := none
        strengths := none, weaknesses := none, suggestions := none } }

/-- An upstream client answering with the full response. -/
def upFull : Prompts → UpstreamOutcome := fun _ => .success respFull

/-- An upstream client answering with the bare response. -/
def upBare : Prompts → UpstreamOutcome := fun _ => .success respBare

/-- A story with analyzable content. -/
def storyOk : StoryFields :=
  { title := some "The Fall", summary := some "A city falls.", body := some "Long ago, a city fell." }

/-- A story whose fields are null, empty or blank. -/
def storyBlank : StoryFields :=
  { title := some "", summary := some "  ", body := none }

/-! Theorems settling the claims. -/

/-- C1: for every input whose trimmed form is non-empty, when the AI is
disabled or no API key is configured, analyze_text returns the mock
result, with meta mode mock, all token counts 0 and a null model, issues
no upstream call, never reads the daily-token key, and leaves the
daily-token counter unchanged. -/
theorem analyze_text_degraded_frame (cfg : LoreAIConfig) (hasKey : Bool)
    (upstream : Prompts → UpstreamOutcome) (ledger : Nat) (input : String)
    (hne : pyStrip input ≠ "") (hdeg : cfg.enabled = false ∨ hasKey = false) :
    (analyze_text cfg hasKey upstream ledger input).outcome
        = .ok (mock_response (truncate cfg (pyStrip input)))
      ∧ (mock_response (truncate cfg (pyStrip input))).meta.ai_mode = "mock"
      ∧ (mock_response (truncate cfg (pyStrip input))).meta.input_tokens = some 0
      ∧ (mock_response (truncate cfg (pyStrip input))).meta.output_tokens = some 0
      ∧ (mock_response (truncate cfg (pyStrip input))).meta.total_tokens = some 0
      ∧ (mock_response (truncate cfg (pyStrip input))).meta.model = none
      ∧ (analyze_text cfg hasKey upstream ledger input).upstreamCalls = []
      ∧ (analyze_text cfg hasKey upstream ledger input).ledger = ledger
      ∧ (analyze_text cfg hasKey upstream ledger input).ledgerReads = 0 := by
  have hcond : (!cfg.enabled || !hasKey) = true := by
    rcases hdeg with h | h <;> simp [h]
  simp [analyze_text, hne, hcond, mock_response]

/-- Witness for C1 at a disabled configuration and concrete input. -/
theorem analyze_text_degraded_frame_witness :
    pyStrip " hi " ≠ "" ∧ (cfgOff.enabled = false ∨ (true : Bool) = false)
      ∧ ((analyze_text cfgOff true upFail 7 " hi ").outcome
            = .ok (mock_response (truncate cfgOff (pyStrip " hi ")))
        ∧ (mock_response (truncate cfgOff (pyStrip " hi "))).meta.ai_mode = "mock"
        ∧ (mock_response (truncate cfgOff (pyStrip " hi "))).meta.input_tokens = some 0
        ∧ (mock_response (truncate cfgOff (pyStrip " hi "))).meta.output_tokens = some 0
        ∧ (mock_response (truncate cfgOff (pyStrip " hi "))).meta.total_tokens = some 0
        ∧ (mock_response (truncate cfgOff (pyStrip " hi "))).meta.model = none
        ∧ (analyze_text cfgOff true upFail 7 " hi ").upstreamCalls = []
        ∧ (analyze_text cfgOff true upFail 7 " hi ").ledger = 7
        ∧ (analyze_text cfgOff true upFail 7 " hi ").ledgerReads = 0) :=
  ⟨by decide, Or.inl rfl,
   analyze_text_degraded_frame cfgOff true upFail 7 " hi " (by decide) (Or.inl rfl)⟩

/-- C5: for every empty or whitespace-only input, analyze_text fails with
the empty-input error having issued no upstream call and no daily-token
read, leaving the counter unchanged; and a story whose title, summary and
body are all null or blank gets HTTP 400 from the analyze endpoint with a
nothing-to-analyze message, again with no upstream call and no ledger
read. -/
theorem empty_input_rejected (cfg : LoreAIConfig) (hasKey : Bool)
    (upstream : Prompts → UpstreamOutcome) (ledger : Nat) (input : String)
    (storyId : Nat) (s : StoryFields)
    (hin : pyStrip input = "")
    (h1 : pyStrip (s.title.getD "") = "")
    (h2 : pyStrip (s.summary.getD "") = "")
    (h3 : pyStrip (s.body.getD "") = "") :
    analyze_text cfg hasKey upstream ledger input
        = { outcome := .error .emptyInput, ledger := ledger, ledgerReads := 0
            upstreamCalls := [], processed := none }
      ∧ (story_analyze cfg hasKey upstream ledger storyId s).response.status = 400
      ∧ (story_analyze cfg hasKey upstream ledger storyId s).response.detail
          = some "Nothing to analyze (title/summary/body are empty)."
      ∧ (story_analyze cfg hasKey upstream ledger storyId s).upstreamCalls = []
      ∧ (story_analyze cfg hasKey upstream ledger storyId s).ledgerReads = 0
      ∧ (story_analyze cfg hasKey upstream ledger storyId s).ledger = ledger := by
  have hst : story_text s = "" := by
    have hf : List.filter (fun p => p != "" && pyStrip p != "")
        [s.title.getD "", s.summary.getD "", s.body.getD ""] = [] := by
      simp [List.filter_cons, h1, h2, h3]
    rw [story_text, hf]
    rfl
  refine ⟨by simp [analyze_text, hin], ?_, ?_, ?_, ?_, ?_⟩ <;>
    simp [story_analyze, hst]

/-- Witness for C5 at whitespace input and a blank story. -/
theorem empty_input_rejected_witness :
    pyStrip " \n\t " = "" ∧ pyStrip (storyBlank.title.getD "") = ""
      ∧ pyStrip (storyBlank.summary.getD "") = "" ∧ pyStrip (storyBlank.body.getD "") = ""
      ∧ (analyze_text cfgLive true upFail 5 " \n\t "
            = { outcome := .error .emptyInput, ledger := 5, ledgerReads := 0
                upstreamCalls := [], processed := none }
        ∧ (story_analyze cfgLive true upFail 5 1 storyBlank).response.status = 400
        ∧ (story_analyze cfgLive true upFail 5 1 storyBlank).response.detail
            = some "Nothing to analyze (title/summary/body are empty)."
        ∧ (story_analyze cfgLive true upFail 5 1 storyBlank).upstreamCalls = []
        ∧ (story_analyze cfgLive true upFail 5 1 storyBlank).ledgerReads = 0
        ∧ (story_analyze cfgLive true upFail 5 1 storyBlank).ledger = 5) :=
  ⟨by decide, by decide, by decide, by decide,
   empty_input_rejected cfgLive true upFail 5 " \n\t " 1 storyBlank
     (by decide) (by decide) (by decide) (by decide)⟩

/-- C2: on the live path (enabled, key configured), when the recorded
usage has reached the daily budget, analyze_text raises
DailyBudgetExceeded and issues no upstream call; at the endpoint a story
with analyzable content then gets HTTP 429 with the budget message and
again no upstream call. -/
theorem daily_budget_exceeded_rejects (cfg : LoreAIConfig)
    (upstream : Prompts → UpstreamOutcome) (ledger : Nat) (input : String)
    (storyId : Nat) (s : StoryFields)
    (hne : pyStrip input ≠ "") (hen : cfg.enabled = true)
    (hbud : cfg.daily_token_budget ≤ ledger)
    (hs : pyStrip (story_text s) ≠ "") :
    (analyze_text cfg true upstream ledger input).outcome = .error .dailyBudgetExceeded
      ∧ (analyze_text cfg true upstream ledger input).upstreamCalls = []
      ∧ (analyze_text cfg true upstream ledger input).ledger = ledger
      ∧ (story_analyze cfg true upstream ledger storyId s).response.status = 429
      ∧ (story_analyze cfg true upstream ledger storyId s).response.detail
          = some "AI daily token budget exceeded. Try again tomorrow."
      ∧ (story_analyze cfg true upstream ledger storyId s).upstreamCalls = [] := by
  have hts : story_text s ≠ "" := by
    intro h
    exact hs (by rw [h]; rfl)
  have hsvc : ∀ t : String, pyStrip t ≠ "" →
      analyze_text cfg true upstream ledger t
        = { outcome := .error .dailyBudgetExceeded, ledger := ledger, ledgerReads := 1
            upstreamCalls := [], processed := some (truncate cfg (pyStrip t)) } := by
    intro t ht
    simp [analyze_text, ht, hen, hbud]
  refine ⟨?_, ?_, ?_, ?_, ?_, ?_⟩ <;>
    simp [hsvc input hne, story_analyze, hts, hsvc (story_text s) hs,
      AiError.isDailyBudgetExceeded, AiError.message]

/-- Witness for C2 at a saturated ledger and a concrete story. -/
theorem daily_budget_exceeded_rejects_witness :
    pyStrip "tale" ≠ "" ∧ cfgLive.enabled = true ∧ cfgLive.daily_token_budget ≤ 1000
      ∧ pyStrip (story_text storyOk) ≠ ""
      ∧ ((analyze_text cfgLive true upFail 1000 "tale").outcome = .error .dailyBudgetExceeded
        ∧ (analyze_text cfgLive true upFail 1000 "tale").upstreamCalls = []
        ∧ (analyze_text cfgLive true upFail 1000 "tale").ledger = 1000
        ∧ (story_analyze cfgLive true upFail 1000 9 storyOk).response.status = 429
        ∧ (story_analyze cfgLive true upFail 1000 9 storyOk).response.detail
            = some "AI daily token budget exceeded. Try again tomorrow."
        ∧ (story_analyze cfgLive true upFail 1000 9 storyOk).upstreamCalls = []) :=
  ⟨by decide, rfl, by decide, by decide,
   daily_budget_exceeded_rejects cfgLive upFail 1000 "tale" 9 storyOk
     (by decide) rfl (by decide) (by decide)⟩

/-- C3: on a successful live call whose response reports a total token
count of n, the daily-token counter grows by exactly n; when the response
reports no total, the counter is not written and keeps its value. -/
theorem usage_recorded_exactly (cfg : LoreAIConfig)
    (upstream : Prompts → UpstreamOutcome) (ledger : Nat) (input : String)
    (resp : UpstreamResponse) (n : Nat)
    (hne : pyStrip input ≠ "") (hen : cfg.enabled = true)
    (hbud : ledger < cfg.daily_token_budget)
    (hup : upstream (build_prompt (truncate cfg (pyStrip input))) = .success resp) :
    (respTotalTokens resp = some n →
        (analyze_text cfg true upstream ledger input).ledger = ledger + n)
      ∧ (respTotalTokens resp = none →
        (analyze_text cfg true upstream ledger input).ledger = ledger) := by
  have hnb : ¬ cfg.daily_token_budget ≤ ledger := Nat.not_le.mpr hbud
  constructor
  · intro h
    simp [analyze_text, hne, hen, hnb, hup, applyUsage, h]
  · intro h
    simp [analyze_text, hne, hen, hnb, hup, applyUsage, h]

/-- Witness for C3: a reported total of 18 grows the counter from 0 to 18,
and a response without usage leaves it at 0. -/
theorem usage_recorded_exactly_witness :
    pyStrip " tale " ≠ "" ∧ cfgLive.enabled = true ∧ 0 < cfgLive.daily_token_budget
      ∧ respTotalTokens respFull = some 18 ∧ respTotalTokens respBare = none
      ∧ (analyze_text cfgLive true upFull 0 " tale ").ledger = 0 + 18
      ∧ (analyze_text cfgLive true upBare 0 " tale ").ledger = 0 :=
  ⟨by decide, rfl, by decide, rfl, rfl,
   (usage_recorded_exactly cfgLive upFull 0 " tale " respFull 18
     (by decide) rfl (by decide) rfl).1 rfl,
   (usage_recorded_exactly cfgLive upBare 0 " tale " respBare 0
     (by decide) rfl (by decide) rfl).2 rfl⟩

/-- C6: on the live path, an error raised by the upstream call makes
analyze_text fail with the upstream-failure kind, and the endpoint
answers HTTP 503 with the fixed generic message, whatever the underlying
upstream error was: the response does not depend on it. -/
theorem upstream_failure_masked (cfg : LoreAIConfig)
    (upstream : Prompts → UpstreamOutcome) (ledger : Nat)
    (storyId : Nat) (s : StoryFields) (exc : String)
    (hen : cfg.enabled = true)
    (hbud : ledger < cfg.daily_token_budget)
    (hs : pyStrip (story_text s) ≠ "")
    (hup : upstream (build_prompt (truncate cfg (pyStrip (story_text s)))) = .failure exc) :
    (analyze_text cfg true upstream ledger (story_text s)).outcome = .error .upstreamFailure
      ∧ AiError.upstreamFailure.message = "AI analysis failed."
      ∧ (story_analyze cfg true upstream ledger storyId s).response.status = 503
      ∧ (story_analyze cfg true upstream ledger storyId s).response.detail
          = some "AI analysis failed." := by
  have hts : story_text s ≠ "" := by
    intro h
    exact hs (by rw [h]; rfl)
  have hnb : ¬ cfg.daily_token_budget ≤ ledger := Nat.not_le.mpr hbud
  have hsvc : (analyze_text cfg true upstream ledger (story_text s)).outcome
      = .error .upstreamFailure := by
    simp [analyze_text, hs, hen, hnb, hup]
  refine ⟨hsvc, rfl, ?_, ?_⟩ <;>
    simp [story_analyze, hts, hsvc, AiError.isDailyBudgetExceeded, AiError.message]

/-- Witness for C6 at a concrete story and transport error. -/
theorem upstream_failure_masked_witness :
    cfgLive.enabled = true ∧ 0 < cfgLive.daily_token_budget
      ∧ pyStrip (story_text storyOk) ≠ ""
      ∧ upFail (build_prompt (truncate cfgLive (pyStrip (story_text storyOk))))
          = .failure "connection reset by peer"
      ∧ ((analyze_text cfgLive true upFail 0 (story_text storyOk)).outcome
            = .error .upstreamFailure
        ∧ AiError.upstreamFailure.message = "AI analysis failed."
        ∧ (story_analyze cfgLive true upFail 0 4 storyOk).response.status = 503
        ∧ (story_analyze cfgLive true upFail 0 4 storyOk).response.detail
            = some "AI analysis failed.") :=
  ⟨rfl, by decide, by decide, rfl,
   upstream_failure_masked cfgLive upFail 0 4 storyOk "connection reset by peer"
     rfl (by decide) (by decide) rfl⟩

/-- C7: a live success whose parsed output omits an optional key does not
fail: the result defaults a missing array key to the empty list and a
missing string key to the empty string. -/
theorem missing_fields_default (cfg : LoreAIConfig)
    (upstream : Prompts → UpstreamOutcome) (ledger : Nat) (input : String)
    (resp : UpstreamResponse)
    (hne : pyStrip input ≠ "") (hen : cfg.enabled = true)
    (hbud : ledger < cfg.daily_token_budget)
    (hup : upstream (build_prompt (truncate cfg (pyStrip input))) = .success resp) :
    (analyze_text cfg true upstream ledger input).outcome = .ok (liveResult cfg resp)
      ∧ (resp.parsed.themes = none → (liveResult cfg resp).themes = [])
      ∧ (resp.parsed.strengths = none → (liveResult cfg resp).strengths = [])
      ∧ (resp.parsed.weaknesses = none → (liveResult cfg resp).weaknesses = [])
      ∧ (resp.parsed.suggestions = none → (liveResult cfg resp).suggestions = [])
      ∧ (resp.parsed.summary = none → (liveResult cfg resp).summary = "")
      ∧ (resp.parsed.tone = none → (liveResult cfg resp).tone = "") := by
  have hnb : ¬ cfg.daily_token_budget ≤ ledger := Nat.not_le.mpr hbud
  refine ⟨by simp [analyze_text, hne, hen, hnb, hup], ?_, ?_, ?_, ?_, ?_, ?_⟩ <;>
    (intro h; simp [liveResult, h]) <;> rfl

/-- Witness for C7: the bare response, every key missing, yields the fully
defaulted result. -/
theorem missing_fields_default_witness :
    pyStrip " tale " ≠ "" ∧ cfgLive.enabled = true ∧ 0 < cfgLive.daily_token_budget
      ∧ respBare.parsed.themes = none
      ∧ (analyze_text cfgLive true upBare 0 " tale ").outcome = .ok (liveResult cfgLive respBare)
      ∧ (liveResult cfgLive respBare).themes = []
      ∧ (liveResult cfgLive respBare).strengths = []
      ∧ (liveResult cfgLive respBare).weaknesses = []
      ∧ (liveResult cfgLive respBare).suggestions = []
      ∧ (liveResult cfgLive respBare).summary = ""
      ∧ (liveResult cfgLive respBare).tone = "" := by
  have h := missing_fields_default cfgLive upBare 0 " tale " respBare
    (by decide) rfl (by decide) rfl
  exact ⟨by decide, rfl, by decide, rfl, h.1, h.2.1 rfl, h.2.2.1 rfl, h.2.2.2.1 rfl,
    h.2.2.2.2.1 rfl, h.2.2.2.2.2.1 rfl, h.2.2.2.2.2.2 rfl⟩

/-- C10: a live success strips leading and trailing whitespace from the
parsed summary and tone, and passes themes, strengths, weaknesses and
suggestions through from the parsed output unmodified. -/
theorem live_result_field_shaping (cfg : LoreAIConfig)
    (upstream : Prompts → UpstreamOutcome) (ledger : Nat) (input : String)
    (resp : UpstreamResponse) (ts ss ws gs : List String)
    (hne : pyStrip input ≠ "") (hen : cfg.enabled = true)
    (hbud : ledger < cfg.daily_token_budget)
    (hup : upstream (build_prompt (truncate cfg (pyStrip input))) = .success resp) :
    (analyze_text cfg true upstream ledger input).outcome = .ok (liveResult cfg resp)
      ∧ (liveResult cfg resp).summary = pyStrip (resp.parsed.summary.getD "")
      ∧ (liveResult cfg resp).tone = pyStrip (resp.parsed.tone.getD "")
      ∧ (resp.parsed.themes = some ts → (liveResult cfg resp).themes = ts)
      ∧ (resp.parsed.strengths = some ss → (liveResult cfg resp).strengths = ss)
      ∧ (resp.parsed.weaknesses = some ws → (liveResult cfg resp).weaknesses = ws)
      ∧ (resp.parsed.suggestions = some gs → (liveResult cfg resp).suggestions = gs) := by
  have hnb : ¬ cfg.daily_token_budget ≤ ledger := Nat.not_le.mpr hbud
  refine ⟨by simp [analyze_text, hne, hen, hnb, hup], rfl, rfl, ?_, ?_, ?_, ?_⟩ <;>
    (intro h; simp [liveResult, h])

/-- Witness for C10 at the full response: the padded summary and tone come
back stripped and the lists unchanged. -/
theorem live_result_field_shaping_witness :
    pyStrip " tale " ≠ "" ∧ cfgLive.enabled = true ∧ 0 < cfgLive.daily_token_budget
      ∧ respFull.parsed.themes = some ["courage"]
      ∧ (analyze_text cfgLive true upFull 0 " tale ").outcome = .ok (liveResult cfgLive respFull)
      ∧ (liveResult cfgLive respFull).summary = pyStrip (respFull.parsed.summary.getD "")
      ∧ (liveResult cfgLive respFull).tone = pyStrip (respFull.parsed.tone.getD "")
      ∧ (liveResult cfgLive respFull).themes = ["courage"]
      ∧ (liveResult cfgLive respFull).strengths = ["pacing"]
      ∧ (liveResult cfgLive respFull).weaknesses = ["length"]
      ∧ (liveResult cfgLive respFull).suggestions = ["trim it"] := by
  have h := live_result_field_shaping cfgLive upFull 0 " tale " respFull
    ["courage"] ["pacing"] ["length"] ["trim it"] (by decide) rfl (by decide) rfl
  exact ⟨by decide, rfl, by decide, rfl, h.1, h.2.1, h.2.2.1, h.2.2.2.1 rfl,
    h.2.2.2.2.1 rfl, h.2.2.2.2.2.1 rfl, h.2.2.2.2.2.2 rfl⟩

/-- C4: when the trimmed input is longer than max_input_chars, the
processed text handed onward (to the prompt builder on the live path, to
the placeholder in degraded mode) is the hard cut to exactly
max_input_chars leading characters of the trimmed input, and any upstream
call carries exactly that cut text in its user message. -/
theorem input_truncated_hard_cut (cfg : LoreAIConfig) (hasKey : Bool)
    (upstream : Prompts → UpstreamOutcome) (ledger : Nat) (input : String)
    (hlong : cfg.max_input_chars < (pyStrip input).length) :
    (analyze_text cfg hasKey upstream ledger input).processed
        = some (pySlice (pyStrip input) cfg.max_input_chars)
      ∧ (pySlice (pyStrip input) cfg.max_input_chars).length = cfg.max_input_chars
      ∧ (pySlice (pyStrip input) cfg.max_input_chars).data
          = (pyStrip input).data.take cfg.max_input_chars
      ∧ ((analyze_text cfg hasKey upstream ledger input).upstreamCalls = []
        ∨ (analyze_text cfg hasKey upstream ledger input).upstreamCalls
            = [build_prompt (pySlice (pyStrip input) cfg.max_input_chars)])
      ∧ (build_prompt (pySlice (pyStrip input) cfg.max_input_chars)).user
          = userIntro ++ pySlice (pyStrip input) cfg.max_input_chars := by
  have hne : pyStrip input ≠ "" := by
    intro he
    rw [he] at hlong
    exact Nat.not_lt_zero _ hlong
  have htr : truncate cfg (pyStrip input) = pySlice (pyStrip input) cfg.max_input_chars := by
    simp [truncate, hlong]
  refine ⟨?_, ?_, rfl, ?_, rfl⟩
  · unfold analyze_text
    rw [if_neg hne]
    simp only [htr]
    split
    · rfl
    · split
      · rfl
      · split
        · rfl
        · split <;> rfl
  · simp only [pySlice, String.length, List.length_take]
    simp only [String.length] at hlong
    omega
  · unfold analyze_text
    rw [if_neg hne]
    simp only [htr]
    split
    · exact Or.inl rfl
    · split
      · exact Or.inl rfl
      · split
        · exact Or.inl rfl
        · split
          · exact Or.inr rfl
          · exact Or.inr rfl

/-- Witness for C4: a tiny ceiling of 3 characters cuts a 5 character
trimmed input to its first 3 characters. -/
theorem input_truncated_hard_cut_witness :
    cfgTiny.max_input_chars < (pyStrip " hello ").length
      ∧ ((analyze_text cfgTiny true upFull 0 " hello ").processed
            = some (pySlice (pyStrip " hello ") cfgTiny.max_input_chars)
        ∧ (pySlice (pyStrip " hello ") cfgTiny.max_input_chars).length = cfgTiny.max_input_chars
        ∧ (pySlice (pyStrip " hello ") cfgTiny.max_input_chars).data
            = (pyStrip " hello ").data.take cfgTiny.max_input_chars
        ∧ ((analyze_text cfgTiny true upFull 0 " hello ").upstreamCalls = []
          ∨ (analyze_text cfgTiny true upFull 0 " hello ").upstreamCalls
              = [build_prompt (pySlice (pyStrip " hello ") cfgTiny.max_input_chars)])
        ∧ (build_prompt (pySlice (pyStrip " hello ") cfgTiny.max_input_chars)).user
            = userIntro ++ pySlice (pyStrip " hello ") cfgTiny.max_input_chars) :=
  ⟨by decide, input_truncated_hard_cut cfgTiny true upFull 0 " hello " (by decide)⟩

/-- C9: the AI throttle keys only on the authenticated caller: a request
with no user or an unauthenticated user gets no cache key and is admitted
whatever the window counter says, and an authenticated user gets a key
built from the user primary key alone, unchanged under any request body
or target entity. -/
theorem throttle_keys_on_identity_only :
    (∀ (req : ThrottleRequest) (w : String → Bool),
        req.user = none ∨ (∃ u, req.user = some u ∧ u.is_authenticated = false) →
        get_cache_key req = none ∧ allow_request w req = true)
      ∧ (∀ (u : RequestUser) (b1 b2 : String) (e1 e2 : Nat),
        u.is_authenticated = true →
        get_cache_key { user := some u, body := b1, entityId := e1 }
            = some (cache_format "ai" (toString u.pk))
          ∧ get_cache_key { user := some u, body := b1, entityId := e1 }
            = get_cache_key { user := some u, body := b2, entityId := e2 }) := by
  constructor
  · intro req w h
    have hk : get_cache_key req = none := by
      rcases h with h | ⟨u, hu, ha⟩
      · simp [get_cache_key, h]
      · simp [get_cache_key, hu, ha]
    exact ⟨hk, by simp [allow_request, hk]⟩
  · intro u b1 b2 e1 e2 ha
    constructor <;> simp [get_cache_key, ha]

/-- Witness for C9: an anonymous request is admitted even by an
always-deny window, and user 42 gets the same identity key under two
different bodies and entities. -/
theorem throttle_keys_on_identity_only_witness :
    (get_cache_key { user := none, body := "ignored", entityId := 9 } = none
      ∧ allow_request (fun _ => false) { user := none, body := "ignored", entityId := 9 } = true)
      ∧ (get_cache_key { user := some { pk := 42, is_authenticated := true }, body := "a", entityId := 1 }
            = some (cache_format "ai" (toString (42 : Nat)))
        ∧ get_cache_key { user := some { pk := 42, is_authenticated := true }, body := "a", entityId := 1 }
            = get_cache_key { user := some { pk := 42, is_authenticated := true }, body := "b", entityId := 2 }) :=
  ⟨throttle_keys_on_identity_only.1 { user := none, body := "ignored", entityId := 9 }
      (fun _ => false) (Or.inl rfl),
   throttle_keys_on_identity_only.2 { pk := 42, is_authenticated := true } "a" "b" 1 2 rfl⟩

/-- C8: the daily-counter increment of add_daily_tokens_used is a cache
read followed by a separate cache write of readValue + tokens, with no
atomicity between the two; serialising two 100 token calls from counter 0
yields 200, but the interleaving in which both calls read before either
writes yields 100: one increment is lost, so concurrent totals do not sum
as the claim requires. -/
theorem add_daily_tokens_lost_update :
    runInterleaving [true, true, false, false] 0
        { tokens := 100, readVal := none, done := false }
        { tokens := 100, readVal := none, done := false } = 200
      ∧ runInterleaving [true, false, true, false] 0
        { tokens := 100, readVal := none, done := false }
        { tokens := 100, readVal := none, done := false } = 100
      ∧ (100 : Nat) ≠ 200 := by
  decide

end LoreSmith
